import Mathlib

/-!
Verification development for the Salesforce Go client library
(github.com/PramithaMJ/salesforce).

The definitions below are a shallow embedding of the resilient request
pipeline: the typed error taxonomy and retry classification
(`types/types.go`), the retrying HTTP executor (`http/client.go`), the
credential expiry check (`types/types.go`), the refresh-token
authenticator's shared-state behaviour (`auth/authenticator.go`), and the
Bulk API 2.0 CSV result parsing and upload (`bulk/service.go`).

Machine integers are modelled as `Nat`/`Int` (no overflow is reachable at
the values involved), Go durations and the float backoff arithmetic are
modelled over `ℚ` (the `time.Duration` conversion truncates sub-nanosecond
fractions, which cannot move a value across any of the bounds stated
below), and the network is modelled as a scripted wire: a list of
responses consumed one per attempt.
-/

/-- `types.APIError` from `types/types.go`: a Salesforce API error with a
machine-readable code and the HTTP status it arrived with. -/
structure APIError where
  message : String
  errorCode : String
  fields : List String
  statusCode : Nat
deriving DecidableEq, Repr

/-- `APIError.IsRetryable` from `types/types.go` lines 86-93: the code
switches on the error code (`REQUEST_LIMIT_EXCEEDED` and
`UNABLE_TO_LOCK_ROW` are retryable) and otherwise retries on status 429 or
any 5xx. -/
def APIError.IsRetryable (e : APIError) : Bool :=
  if e.errorCode == "REQUEST_LIMIT_EXCEEDED" || e.errorCode == "UNABLE_TO_LOCK_ROW" then
    true
  else
    e.statusCode == 429 || decide (500 ≤ e.statusCode)

/-- The JSON interpretation of a non-2xx response body, as seen by
`types.ParseAPIError`: the body either unmarshals as a JSON array of error
objects, as a single error object, or as neither.  The raw bytes are kept
alongside, as the Go code keeps them for the fallback branch. -/
inductive ErrorBody where
  | arrayBody (es : List APIError) (raw : String)
  | singleBody (e : APIError) (raw : String)
  | unparsed (raw : String)
deriving DecidableEq, Repr

/-- The raw bytes of a response body. -/
def ErrorBody.rawText : ErrorBody → String
  | .arrayBody _ r => r
  | .singleBody _ r => r
  | .unparsed r => r

/-- The Go `error` values produced by the request pipeline:
`types.RateLimitError`, a single `*types.APIError`, the `types.APIErrors`
slice, a context cancellation, a transport failure, and the
"request failed after N attempts" wrapper from `http.Client.Request`. -/
inductive SFError where
  | rateLimit (retryAfter : Int) (message : String)
  | api (e : APIError)
  | apis (es : List APIError)
  | ctxCanceled
  | transport (msg : String)
  | exhausted (attempts : Nat) (last : Option SFError)

/-- `types.ParseAPIError` from `types/types.go` lines 153-174: try the
array form first (used whenever it unmarshals to a non-empty slice), then
the single-object form (used when its `errorCode` is non-empty), and fall
back to wrapping the raw body under a synthetic `HTTP_<status>` code. -/
def ParseAPIError (statusCode : Nat) (body : ErrorBody) : SFError :=
  match body with
  | .arrayBody es raw =>
    if es.isEmpty then
      .api { message := raw, errorCode := "HTTP_" ++ toString statusCode,
             fields := [], statusCode := statusCode }
    else
      .apis (es.map fun e => { e with statusCode := statusCode })
  | .singleBody e raw =>
    if e.errorCode == "" then
      .api { message := raw, errorCode := "HTTP_" ++ toString statusCode,
             fields := [], statusCode := statusCode }
    else
      .api { e with statusCode := statusCode }
  | .unparsed raw =>
    .api { message := raw, errorCode := "HTTP_" ++ toString statusCode,
           fields := [], statusCode := statusCode }

/-- `isRetryable` from `http/client.go` lines 229-237: a
`*types.RateLimitError` is retryable, a `*types.APIError` defers to its
`IsRetryable` method, and every other error value (including the
`types.APIErrors` slice) is not retryable. -/
def isRetryable : SFError → Bool
  | .rateLimit _ _ => true
  | .api e => e.IsRetryable
  | _ => false

/-- `Client.calculateBackoff` from `http/client.go` lines 220-227, over ℚ:
`wait = retryWaitMin * 2^attempt`, `jitter = wait * 0.2 * u` where
`u = rand.Float64()*2 - 1 ∈ [-1, 1)`, capped at `retryWaitMax`. -/
def calculateBackoff (wmin wmax : ℚ) (attempt : Nat) (u : ℚ) : ℚ :=
  let wait := wmin * 2 ^ attempt
  let jitter := wait * (1 / 5) * u
  if wmax < wait + jitter then wmax else wait + jitter

/-- `types.Token`, restricted to the fields the expiry check reads.  Times
are in seconds; `expiresAt = none` models Go's zero `time.Time`
(`ExpiresAt.IsZero()`). -/
structure Token where
  issuedAt : Int
  expiresAt : Option Int
deriving DecidableEq, Repr

/-- `Token.IsExpired` from `types/types.go` lines 32-38: with no explicit
expiry the token counts as expired once more than 2 hours (7200 s) have
passed since `IssuedAt`; with an explicit expiry it counts as expired once
`now` is after `ExpiresAt` minus a 5 minute (300 s) margin. -/
def Token.IsExpired (now : Int) (t : Token) : Bool :=
  match t.expiresAt with
  | none => decide (7200 < now - t.issuedAt)
  | some e => decide (e - 300 < now)

/-- A scripted HTTP response: its status code, the parsed `Retry-After`
header (`none` when absent or non-numeric, matching the `strconv.Atoi`
guard), and its body. -/
structure Response where
  statusCode : Nat
  retryAfter : Option Int
  body : ErrorBody

/-- The configuration of `http.Client` relevant to the retry/refresh
logic: `maxRetries`, and whether a `tokenProvider` was installed. -/
structure Client where
  maxRetries : Nat
  hasTokenProvider : Bool

/-- The scripted wire plus the observable trace of one logical call:
`responses` are the transport's remaining answers (consumed one per sent
request), `refreshes` the outcomes of successive `RefreshToken` calls,
`cancels` says for each backoff sleep whether `ctx.Done()` fires before
the timer, `jitters` scripts the random draw `rand.Float64()*2 - 1` of
each backoff computation; `sent`, `refreshCalls` and `waits` record the
requests sent, the credential refreshes performed and the completed
sleeps. -/
structure Wire where
  responses : List Response
  refreshes : List Bool
  cancels : List Bool
  jitters : List ℚ
  sent : Nat
  refreshCalls : Nat
  waits : List ℚ

/-- `resp.StatusCode >= 200 && resp.StatusCode < 300` (negation of the
error branch guard in `http/client.go` line 184). -/
def is2xx (n : Nat) : Bool := decide (200 ≤ n) && decide (n < 300)

/-- `Client.doRequest` from `http/client.go` lines 133-202.  One scripted
response is consumed per attempt; 2xx returns the body bytes, 429 builds a
`RateLimitError` from the `Retry-After` header (default 60), and a 401
with a token provider calls `RefreshToken` and, when the refresh
succeeds, replays the same request by recursing — the source has no guard
limiting this recursion, so the embedding carries fuel, instantiated with
the length of the remaining script by `Request` below. -/
def doRequest (c : Client) : Nat → Wire → (Except SFError String) × Wire
  | 0, s => (.error (.transport "request failed"), s)
  | fuel + 1, s =>
    match s.responses with
    | [] => (.error (.transport "request failed"), s)
    | r :: rest =>
      let s1 : Wire := { s with responses := rest, sent := s.sent + 1 }
      if is2xx r.statusCode then
        (.ok r.body.rawText, s1)
      else if r.statusCode == 429 then
        (.error (.rateLimit (r.retryAfter.getD 60) r.body.rawText), s1)
      else if r.statusCode == 401 && c.hasTokenProvider then
        let ok := s1.refreshes.headD false
        let s2 : Wire := { s1 with refreshes := s1.refreshes.tail,
                                   refreshCalls := s1.refreshCalls + 1 }
        if ok then doRequest c fuel s2
        else (.error (ParseAPIError r.statusCode r.body), s2)
      else
        (.error (ParseAPIError r.statusCode r.body), s1)

/-- The retry loop of `Client.Request` from `http/client.go` lines
109-131, with `rem = maxRetries + 1 - attempt` as structural fuel.  A
non-retryable error returns immediately; a retryable one sleeps
`calculateBackoff attempt` when attempts remain — unless the context is
cancelled during the select, in which case `ctx.Err()` is returned — and
the loop ends in the "request failed after N attempts" wrapper. -/
def requestLoop (c : Client) (wmin wmax : ℚ) :
    Nat → Nat → Option SFError → Wire → (Except SFError String) × Wire
  | 0, _, lastErr, s => (.error (.exhausted (c.maxRetries + 1) lastErr), s)
  | rem + 1, attempt, _, s =>
    let res := doRequest c s.responses.length s
    match res.1 with
    | .ok b => (.ok b, res.2)
    | .error e =>
      if isRetryable e then
        if attempt < c.maxRetries then
          let u := res.2.jitters.headD 0
          let cancel := res.2.cancels.headD false
          let w := calculateBackoff wmin wmax attempt u
          let s2 : Wire := { res.2 with jitters := res.2.jitters.tail,
                                        cancels := res.2.cancels.tail }
          if cancel then (.error .ctxCanceled, s2)
          else requestLoop c wmin wmax rem (attempt + 1) (some e)
                 { s2 with waits := s2.waits ++ [w] }
        else requestLoop c wmin wmax rem (attempt + 1) (some e) res.2
      else (.error e, res.2)

/-- `Client.Request`: run the loop from attempt 0. -/
def Request (c : Client) (wmin wmax : ℚ) (s : Wire) :
    (Except SFError String) × Wire :=
  requestLoop c wmin wmax (c.maxRetries + 1) 0 none s

/-- A parsed bulk result record: Go's `map[string]interface{}` built by
`record[h] = row[i]`, modelled as an association list.  All headers in the
claims considered are pairwise distinct, so Go's map semantics and
association-list lookup agree. -/
abbrev CSVRecord := List (String × String)

/-- Go map lookup with the empty-string default of `getString` in
`bulk/service.go` lines 474-479. -/
def getString (m : CSVRecord) (key : String) : String :=
  match List.lookup key m with
  | some v => v
  | none => ""

/-- The row loop of `parseCSV` in `bulk/service.go` lines 454-470.  Go's
`encoding/csv` reader is used with its default `FieldsPerRecord = 0`
setting: the first `Read` (the header) fixes the expected field count and
every later `Read` on a row of a different length returns
`csv.ErrFieldCount`, which `parseCSV` turns into a "failed to read row"
error.  A row of the right length becomes a record pairing each header
with the cell at its index (`record[h] = row[i]` for `i < len(row)`). -/
def parseCSVRows (headers : List String) :
    List (List String) → Except String (List CSVRecord)
  | [] => .ok []
  | row :: rest =>
    if row.length = headers.length then
      (parseCSVRows headers rest).map fun recs => (headers.zip row :: recs)
    else
      .error "failed to read row: wrong number of fields"

/-- `parseCSV` from `bulk/service.go` lines 445-472, over pre-tokenised
rows (the quoting layer of `encoding/csv` is not at issue in any claim).
An empty body makes the header `Read` return `io.EOF`, giving an empty
record list and no error. -/
def parseCSV : List (List String) → Except String (List CSVRecord)
  | [] => .ok []
  | headers :: rest => parseCSVRows headers rest

/-- `bulk.FailedRecord` from `bulk/service.go`. -/
structure FailedRecord where
  id : String
  err : String
  data : CSVRecord
deriving DecidableEq, Repr

/-- `bulk.SuccessRecord` from `bulk/service.go`. -/
structure SuccessRecord where
  id : String
  created : Bool
  data : CSVRecord
deriving DecidableEq, Repr

/-- The result-shaping part of `Service.GetFailedRecords`
(`bulk/service.go` lines 336-355), applied to an already-fetched body. -/
def GetFailedRecords (body : List (List String)) :
    Except String (List FailedRecord) :=
  (parseCSV body).map fun records =>
    records.map fun r => ⟨getString r "sf__Id", getString r "sf__Error", r⟩

/-- The result-shaping part of `Service.GetSuccessfulRecords`
(`bulk/service.go` lines 314-333), applied to an already-fetched body. -/
def GetSuccessfulRecords (body : List (List String)) :
    Except String (List SuccessRecord) :=
  (parseCSV body).map fun records =>
    records.map fun r =>
      ⟨getString r "sf__Id", getString r "sf__Created" == "true", r⟩

/-- `Service.UploadCSV` from `bulk/service.go` lines 198-225.  Record
values are modelled as the strings `fmt.Sprintf("%v", val)` produces;
when `columns` is empty the header is taken from the first record's keys
(Go iterates the map in unspecified order; the association-list order
stands in for one such order).  Writes to the in-memory `bytes.Buffer`
cannot fail, so the only error source is the PUT issued by `UploadData`,
scripted by `putErr`.  The returned list holds the `(path, document)`
PUT requests issued. -/
def UploadCSV (apiVersion jobID : String) (records : List CSVRecord)
    (columns : List String) (putErr : Option String) :
    List (String × List (List String)) × Option String :=
  if records.length == 0 then
    ([], none)
  else
    let cols := if columns.isEmpty then (records.headD []).map Prod.fst else columns
    let rows := records.map fun record => cols.map fun col => getString record col
    ([("/services/data/v" ++ apiVersion ++ "/jobs/ingest/" ++ jobID ++ "/batches",
       cols :: rows)], putErr)

/-- The shared-state actions one call to
`RefreshTokenAuthenticator.Refresh` (`auth/authenticator.go` lines 82-95)
performs, in order: it unconditionally runs the token exchange against the
remote endpoint (`doTokenRequest`, no lock held, no in-flight flag
consulted) and then stores the token (`SetToken`, under the mutex).
`SalesforceClient.RefreshToken` (`client.go` lines 172-187) likewise calls
`authenticator.Refresh` outside any lock and only takes `c.mu` afterwards
to store the result. -/
inductive AuthAction where
  | exchange
  | setToken
deriving DecidableEq, Repr

/-- The action sequence of one `Refresh` call. -/
def refreshCallActions : List AuthAction := [AuthAction.exchange, AuthAction.setToken]

/-- `Interleave xs ys zs`: `zs` is an arbitrary scheduling of two
concurrent callers whose remaining actions are `xs` and `ys`. -/
inductive Interleave : List AuthAction → List AuthAction → List AuthAction → Prop
  | nil : Interleave [] [] []
  | left {a : AuthAction} {xs ys zs : List AuthAction} :
      Interleave xs ys zs → Interleave (a :: xs) ys (a :: zs)
  | right {a : AuthAction} {xs ys zs : List AuthAction} :
      Interleave xs ys zs → Interleave xs (a :: ys) (a :: zs)

/-- How many token-exchange requests a trace contains. -/
def exchangeCount (tr : List AuthAction) : Nat :=
  tr.countP (fun a => a == AuthAction.exchange)

theorem exchangeCount_of_interleave {xs ys zs : List AuthAction}
    (h : Interleave xs ys zs) :
    exchangeCount zs = exchangeCount xs + exchangeCount ys := by
  induction h with
  | nil => rfl
  | left _ ih =>
    simp only [exchangeCount, List.countP_cons] at *
    omega
  | right _ ih =>
    simp only [exchangeCount, List.countP_cons] at *
    omega

/-- C1: with a token provider installed, a call whose wire yields a 401,
then (after one successful refresh) a 401 again, and then a 2xx, performs
TWO credential refreshes and two replays of the request and returns the
2xx body — the source's `doRequest` recurses on every 401 whose refresh
succeeded, with no "already refreshed" guard, so the replayed request's
401 does not surface an authentication error but triggers a second
refresh.  The first conjunct shows the benign case the claim also
describes: one 401 then a 2xx gives exactly one refresh and one replay
and the 2xx body. -/
theorem c1_second_401_refreshes_again :
    (let s : Wire := { responses :=
                         [⟨401, none, .singleBody ⟨"Session expired", "INVALID_SESSION_ID", [], 0⟩ "sess"⟩,
                          ⟨200, none, .unparsed "okbody"⟩],
                       refreshes := [true], cancels := [], jitters := [],
                       sent := 0, refreshCalls := 0, waits := [] }
     let out := doRequest { maxRetries := 3, hasTokenProvider := true } 2 s
     out.1 = .ok "okbody" ∧ out.2.refreshCalls = 1 ∧ out.2.sent = 2) ∧
    (let s : Wire := { responses :=
                         [⟨401, none, .singleBody ⟨"Session expired", "INVALID_SESSION_ID", [], 0⟩ "sess"⟩,
                          ⟨401, none, .singleBody ⟨"Session expired", "INVALID_SESSION_ID", [], 0⟩ "sess"⟩,
                          ⟨200, none, .unparsed "okbody"⟩],
                       refreshes := [true, true], cancels := [], jitters := [],
                       sent := 0, refreshCalls := 0, waits := [] }
     let out := doRequest { maxRetries := 3, hasTokenProvider := true } 3 s
     out.1 = .ok "okbody" ∧ out.2.refreshCalls = 2 ∧ out.2.sent = 3) :=
  ⟨⟨rfl, rfl, rfl⟩, ⟨rfl, rfl, rfl⟩⟩

/-- C2: any interleaving of two concurrent `Refresh` calls on the same
provider instance contains exactly two token-exchange requests — the
source serialises only the token store (`SetToken`), not the exchange
itself, so concurrent callers are not collapsed onto one exchange. -/
theorem c2_concurrent_refresh_two_exchanges (tr : List AuthAction)
    (h : Interleave refreshCallActions refreshCallActions tr) :
    exchangeCount tr = 2 := by
  rw [exchangeCount_of_interleave h]
  rfl

/-- Witness for `c2_concurrent_refresh_two_exchanges` at the fully
sequential schedule. -/
theorem c2_concurrent_refresh_two_exchanges_witness :
    exchangeCount [AuthAction.exchange, AuthAction.setToken,
                   AuthAction.exchange, AuthAction.setToken] = 2 :=
  c2_concurrent_refresh_two_exchanges _
    (Interleave.left (Interleave.left (Interleave.right (Interleave.right Interleave.nil))))

/-- C3 counterexample: a 429 response carrying a server-suggested delay of
120 seconds (`Retry-After: 120`) is followed by a completed wait of 1
second — `retryWaitMin * 2^0` with zero jitter — not by the suggested 120
seconds: `Client.Request` computes every inter-attempt delay with
`calculateBackoff` and never reads the `RetryAfter` field of the
`RateLimitError`. -/
theorem c3_counterexample_retry_after_ignored :
    (let s : Wire := { responses := [⟨429, some 120, .unparsed "limit"⟩,
                                     ⟨200, none, .unparsed "okbody"⟩],
                       refreshes := [], cancels := [false], jitters := [0],
                       sent := 0, refreshCalls := 0, waits := [] }
     let out := Request { maxRetries := 3, hasTokenProvider := false } 1 30 s
     out.1 = .ok "okbody" ∧ out.2.waits = [1] ∧ (1 : ℚ) ≠ 120) := by
  refine ⟨rfl, ?_, by norm_num⟩
  norm_num [Request, requestLoop, doRequest, calculateBackoff, isRetryable, is2xx]

/-- C3 amended: for every 429 attempt, whatever `Retry-After` value `ra`
the response carries, the delay the executor sleeps before the next
attempt is `calculateBackoff` of the attempt index (the right-hand side
does not mention `ra`); the server suggestion is only recorded in the
`RateLimitError` the attempt is classified as. -/
theorem c3_throttle_wait_is_backoff (c : Client) (wmin wmax u : ℚ)
    (ra : Option Int) (body : ErrorBody) (r2 : Response)
    (refs : List Bool) (cs : List Bool) (js : List ℚ) (sent0 rc0 : Nat) (ws : List ℚ)
    (hm : 0 < c.maxRetries) (h2 : is2xx r2.statusCode = true) :
    (let s : Wire := ⟨[⟨429, ra, body⟩, r2], refs, false :: cs, u :: js, sent0, rc0, ws⟩
     let out := Request c wmin wmax s
     out.1 = .ok r2.body.rawText ∧
       out.2.waits = ws ++ [calculateBackoff wmin wmax 0 u] ∧
       (doRequest c 2 s).1 = .error (.rateLimit (ra.getD 60) body.rawText)) := by
  obtain ⟨m, hm2⟩ : ∃ m, c.maxRetries = m + 1 :=
    ⟨c.maxRetries - 1, by omega⟩
  have h2' : 200 ≤ r2.statusCode ∧ r2.statusCode < 300 := by
    simpa [is2xx] using h2
  refine ⟨?_, ?_, ?_⟩ <;>
    simp [Request, hm2, requestLoop, doRequest, is2xx, isRetryable, h2'.1, h2'.2]

/-- Witness for `c3_throttle_wait_is_backoff` with `Retry-After: 120`. -/
theorem c3_throttle_wait_is_backoff_witness :
    (let s : Wire := ⟨[⟨429, some 120, ErrorBody.unparsed "limit"⟩,
                       ⟨200, none, ErrorBody.unparsed "okbody"⟩],
                      [], [false], [0], 0, 0, []⟩
     let out := Request ⟨3, false⟩ 1 30 s
     out.1 = .ok (ErrorBody.rawText (ErrorBody.unparsed "okbody")) ∧
       out.2.waits = [] ++ [calculateBackoff 1 30 0 0] ∧
       (doRequest ⟨3, false⟩ 2 s).1 =
         .error (.rateLimit ((some (120 : Int)).getD 60)
                  (ErrorBody.rawText (ErrorBody.unparsed "limit")))) :=
  c3_throttle_wait_is_backoff ⟨3, false⟩ 1 30 0 (some 120) (.unparsed "limit")
    ⟨200, none, .unparsed "okbody"⟩ [] [] [] 0 0 [] (by norm_num) rfl

/-- C4 counterexample: a credential with no `expiresAt` (Go's zero time)
issued 3 hours (10800 s) ago IS reported expired — the code's fallback is
a fixed 2-hour assumption since issuance, not "valid indefinitely". -/
theorem c4_counterexample_no_expiry_still_expires :
    Token.IsExpired 10800 ⟨0, none⟩ = true := rfl

/-- C4 amended: when `expiresAt` is absent the credential is reported
expired exactly once more than 2 hours (7200 s) have passed since
issuance; when `expiresAt` is present it is reported expired exactly from
the fixed 5-minute (300 s) safety margin before `expiresAt` onwards. -/
theorem c4_expiry_policy (now : Int) (t : Token) :
    (t.expiresAt = none → (Token.IsExpired now t = true ↔ 7200 < now - t.issuedAt)) ∧
    (∀ e : Int, t.expiresAt = some e → (Token.IsExpired now t = true ↔ e - 300 < now)) := by
  constructor
  · intro h
    simp [Token.IsExpired, h]
  · intro e h
    simp [Token.IsExpired, h]

/-- Witness for `c4_expiry_policy`: a token expiring at 600 s is already
expired at 350 s, inside the 5-minute margin. -/
theorem c4_expiry_policy_witness :
    Token.IsExpired 350 ⟨0, some 600⟩ = true :=
  ((c4_expiry_policy 350 ⟨0, some 600⟩).2 600 rfl).mpr (by norm_num)

/-- C5: the parser accepts the spec's example row (three headers, three
cells, empty trailing cell kept as the empty string) — but a short row
(two cells under three headers) and a long row (four cells) each make
`parseCSV` return an error instead of treating missing cells as absent:
Go's `encoding/csv` reader is used with its default field-count check
and `parseCSV` propagates `csv.ErrFieldCount` as a failure, so the
`if i < len(row)` guard in the record loop is unreachable. -/
theorem c5_short_row_is_an_error :
    (GetFailedRecords [["sf__Id", "sf__Error", "Name"],
                       ["001xx0000000001", "REQUIRED_FIELD_MISSING: Name", ""]]
      = .ok [⟨"001xx0000000001", "REQUIRED_FIELD_MISSING: Name",
              [("sf__Id", "001xx0000000001"),
               ("sf__Error", "REQUIRED_FIELD_MISSING: Name"),
               ("Name", "")]⟩]) ∧
    (parseCSV [["sf__Id", "sf__Error", "Name"],
               ["001xx0000000001", "REQUIRED_FIELD_MISSING: Name"]]
      = .error "failed to read row: wrong number of fields") ∧
    (parseCSV [["sf__Id", "sf__Error", "Name"], ["a", "b", "c", "d"]]
      = .error "failed to read row: wrong number of fields") :=
  ⟨rfl, rfl, rfl⟩

/-- C6: for every retryable classification and every retry attempt
`k ≥ 1`, the delay slept before attempt `k` — `calculateBackoff` at
attempt index `k - 1` with jitter draw `u ∈ [-1, 1]` — lies within
`[0, min(baseDelay * 2^(k-1) * 1.2, maxDelay)]`: never negative and never
above `maxDelay`. -/
theorem c6_backoff_delay_bounds (wmin wmax u : ℚ) (k : Nat)
    (hmin : 0 ≤ wmin) (hmax : 0 ≤ wmax) (hu1 : -1 ≤ u) (hu2 : u ≤ 1) (hk : 1 ≤ k) :
    0 ≤ calculateBackoff wmin wmax (k - 1) u ∧
      calculateBackoff wmin wmax (k - 1) u ≤ min (wmin * 2 ^ (k - 1) * (6 / 5)) wmax := by
  simp only [calculateBackoff]
  have hw : (0 : ℚ) ≤ wmin * 2 ^ (k - 1) := by positivity
  have h5 : (0 : ℚ) ≤ wmin * 2 ^ (k - 1) * (1 / 5) := by positivity
  have hj1 : wmin * 2 ^ (k - 1) * (1 / 5) * u ≤ wmin * 2 ^ (k - 1) * (1 / 5) := by
    calc wmin * 2 ^ (k - 1) * (1 / 5) * u
        ≤ wmin * 2 ^ (k - 1) * (1 / 5) * 1 := mul_le_mul_of_nonneg_left hu2 h5
      _ = wmin * 2 ^ (k - 1) * (1 / 5) := by ring
  have hj2 : -(wmin * 2 ^ (k - 1) * (1 / 5)) ≤ wmin * 2 ^ (k - 1) * (1 / 5) * u := by
    calc -(wmin * 2 ^ (k - 1) * (1 / 5))
        = wmin * 2 ^ (k - 1) * (1 / 5) * (-1) := by ring
      _ ≤ wmin * 2 ^ (k - 1) * (1 / 5) * u := mul_le_mul_of_nonneg_left hu1 h5
  split_ifs with h
  · exact ⟨hmax, le_min (by linarith) le_rfl⟩
  · exact ⟨by linarith, le_min (by linarith) (by linarith)⟩

/-- Witness for `c6_backoff_delay_bounds` at the client defaults
(1 s base, 30 s cap), first retry, maximal jitter draw. -/
theorem c6_backoff_delay_bounds_witness :
    0 ≤ calculateBackoff 1 30 (1 - 1) 1 ∧
      calculateBackoff 1 30 (1 - 1) 1 ≤ min (1 * 2 ^ (1 - 1) * (6 / 5)) 30 :=
  c6_backoff_delay_bounds 1 30 1 1 (by norm_num) (by norm_num) (by norm_num)
    (by norm_num) (by norm_num)

/-- C7: a 500 response whose body is a JSON array of error objects is
parsed into the `APIErrors` slice, which `isRetryable` does not recognise,
so `Request` returns it immediately after a single attempt — even though
the very same error as a single `APIError` is retryable by the taxonomy
(`IsRetryable` is true at status 500), and a second scripted response was
available.  The retryability of a 5xx thus depends on the body shape,
contradicting "5xx → retryable". -/
theorem c7_5xx_array_body_not_retried :
    (let s : Wire := { responses :=
                         [⟨500, none, .arrayBody [⟨"Server error", "SERVER_UNAVAILABLE", [], 0⟩] "raw"⟩,
                          ⟨200, none, .unparsed "okbody"⟩],
                       refreshes := [], cancels := [], jitters := [],
                       sent := 0, refreshCalls := 0, waits := [] }
     let out := Request { maxRetries := 3, hasTokenProvider := false } 1 30 s
     out.1 = .error (.apis [⟨"Server error", "SERVER_UNAVAILABLE", [], 500⟩]) ∧
       out.2.sent = 1 ∧
       isRetryable (ParseAPIError 500
         (.arrayBody [⟨"Server error", "SERVER_UNAVAILABLE", [], 0⟩] "raw")) = false ∧
       APIError.IsRetryable ⟨"Server error", "SERVER_UNAVAILABLE", [], 500⟩ = true) :=
  ⟨rfl, rfl, rfl, rfl⟩

/-- C8: if the caller's context is cancelled while the executor sleeps
between retry attempts (stated at an arbitrary iteration of the retry
loop, after any retryable 429 attempt), the call returns the context's
cancellation error, the sleep is never recorded as completed, and no
further request is sent. -/
theorem c8_cancel_during_backoff (c : Client) (wmin wmax : ℚ) (rem attempt : Nat)
    (lastErr : Option SFError) (r : Response) (rest : List Response)
    (refs cs : List Bool) (js : List ℚ) (sent0 rc0 : Nat) (ws : List ℚ)
    (hr : r.statusCode = 429) (hatt : attempt < c.maxRetries) :
    (let s : Wire := ⟨r :: rest, refs, true :: cs, js, sent0, rc0, ws⟩
     let out := requestLoop c wmin wmax (rem + 1) attempt lastErr s
     out.1 = .error .ctxCanceled ∧ out.2.sent = sent0 + 1 ∧ out.2.waits = ws) := by
  simp [requestLoop, doRequest, is2xx, isRetryable, hr, hatt]

/-- Witness for `c8_cancel_during_backoff`: default client, first attempt,
cancellation firing during the first backoff sleep. -/
theorem c8_cancel_during_backoff_witness :
    (let s : Wire := ⟨[⟨429, none, ErrorBody.unparsed "x"⟩], [], [true], [], 0, 0, []⟩
     let out := requestLoop ⟨3, false⟩ 1 30 1 0 none s
     out.1 = .error .ctxCanceled ∧ out.2.sent = 0 + 1 ∧ out.2.waits = []) :=
  c8_cancel_during_backoff ⟨3, false⟩ 1 30 0 0 none ⟨429, none, .unparsed "x"⟩
    [] [] [] [] 0 0 [] rfl (by norm_num)

/-- C9: for every job ID, API version, column list and scripted transport
outcome, `UploadCSV` on an empty record slice returns nil having issued no
HTTP request at all. -/
theorem c9_uploadCSV_empty_no_request (apiVersion jobID : String)
    (columns : List String) (putErr : Option String) :
    UploadCSV apiVersion jobID [] columns putErr = ([], none) := rfl

/-- C10: an empty result body (end of input before any header row) parses
to an empty record list with no error, both at the raw parser and through
the successful-records fetch. -/
theorem c10_empty_body_parses_to_no_records :
    parseCSV [] = .ok [] ∧ GetSuccessfulRecords [] = .ok [] := ⟨rfl, rfl⟩
